import Mathlib

/-!
Shallow embedding of the OAuth connector code of this repository
(`src/modules/authentication/clients.py`, class `BigDataOAuthClient`, and the
HubSpot callback route `src/modules/integration/routes/hubspot.py`).

The database (Supabase tables `oauth_states` and `user_connectors`) is
modelled as explicit values threaded through each operation: the
`oauth_states` table as the list of stored state strings, the
`user_connectors` table as an association list from the four-column key to
the stored record.  The token endpoint is external: each operation that
POSTs to it takes the response of the endpoint as a parameter.  Each operation
returns, besides its outcome, the resulting `user_connectors` table and the
number of POSTs it made to the token endpoint.
-/

/-- A Python runtime value as it occurs in the embedded fragment: a string,
`None`, or a coroutine object.  The coroutine constructor models the value of
an `async def` function called without `await` (as at `clients.py:402`, where
`get_refresh_token(...)` is not awaited); its argument records which
coroutine function produced it. -/
inductive PyValue where
  | str : String → PyValue
  | none : PyValue
  | coroutine : String → PyValue
  deriving DecidableEq, Repr

/-- Python truthiness of a `PyValue`: `None` is falsy, the empty string is
falsy, any other string is truthy, and a coroutine object is always truthy. -/
def pyTruthy : PyValue → Bool
  | .str s => s != ""
  | .none => false
  | .coroutine _ => true

/-- Python truthiness of an optional string (`None` or a `str`). -/
def pyTruthyOptStr : Option String → Bool
  | Option.none => false
  | Option.some s => s != ""

/-- The parsed JSON body of a token-endpoint response, restricted to the keys
the code reads with `token_data.get(...)` at `clients.py:379-382`, plus
`expires_in` (which OAuth token endpoints send and which the code never
reads).  A missing key is `none`. -/
structure TokenData where
  access_token : Option String
  refresh_token : Option String
  expires_in : Option Int
  expires_at : Option Int
  scope : Option String
  deriving DecidableEq, Repr

/-- Python falsiness of the token-data dict (`if not token_data` at
`clients.py:362`): a dict is falsy exactly when it is empty, i.e. when every
modelled key is absent. -/
def TokenData.isEmpty : TokenData → Bool
  | ⟨Option.none, Option.none, Option.none, Option.none, Option.none⟩ => true
  | _ => false

/-- A token-endpoint HTTP response: status code and parsed JSON body. -/
structure HttpResponse where
  status : Nat
  body : TokenData
  deriving DecidableEq, Repr

/-- The four-column key of the `user_connectors` table
(`clients.py:374-378`). -/
structure CredKey where
  connector_id : String
  organization_id : String
  user_id : String
  project_id : String
  deriving DecidableEq, Repr

/-- One stored `user_connectors` row beyond its key: the columns written by
the upsert at `clients.py:374-383`. -/
structure CredRecord where
  access_token : Option String
  refresh_token : Option String
  expires_at : Option Int
  scope : Option String
  deriving DecidableEq, Repr

/-- The `user_connectors` table, keyed by `CredKey`. -/
abbrev TokenStore := List (CredKey × CredRecord)

/-- Row lookup by the four-column key (the `.eq(...)` chain of
`clients.py:441-450`). -/
def lookupCred (k : CredKey) : TokenStore → Option CredRecord
  | [] => Option.none
  | (k2, r) :: rest => if k2 = k then Option.some r else lookupCred k rest

/-- The Supabase `upsert` of `clients.py:374`: the whole row for the key is
written in one statement — replaced when the key exists, inserted
otherwise. -/
def upsertCred (k : CredKey) (r : CredRecord) : TokenStore → TokenStore
  | [] => [(k, r)]
  | (k2, r2) :: rest => if k2 = k then (k, r) :: rest else (k2, r2) :: upsertCred k r rest

/-- The exceptions the embedded fragment can raise.  Each constructor stands
for one `raise` site: the generic `Exception(...)` messages of
`BigDataOAuthClient`, the Python `TypeError` from calling a function without
its required arguments, the `FastAPI` `HTTPException`, and the error a
Supabase `.single()` query raises when no row matches. -/
inductive PyErr where
  | invalidOAuthState
  | noAuthCode
  | tokenExchangeFailed
  | tokenRefreshFailed
  | noRefreshTokenFound
  | noTokenData
  | noConnectorId
  | noOrganizationId
  | noUserId
  | noProjectId
  | typeError
  | httpException (status : Nat)
  | singleRowNotFound
  deriving DecidableEq, Repr

/-- Outcome of an operation: a returned value or a raised exception. -/
inductive Outcome (α : Type) where
  | ok : α → Outcome α
  | error : PyErr → Outcome α
  deriving DecidableEq, Repr

/-- `store_oauth_state` (`clients.py:254-263`): inserts the row `{state}`
into `oauth_states`.  The row has no other column — in particular no
creation time and no ttl. -/
def store_oauth_state (state : String) (oauth_states : List String) : List String :=
  oauth_states ++ [state]

/-- `fetch_oauth_state` (`clients.py:265-275`): a plain `select` of the rows
whose `state` column equals the argument.  It does not delete the row and
reads no age or ttl column; the table is returned unchanged by construction
(the type of the function shows no mutation, exactly as the source performs
none). -/
def fetch_oauth_state (state : String) (oauth_states : List String) : List String :=
  oauth_states.filter (fun s => s == state)

/-- The body of `store_tokens` (`clients.py:348-385`) once all required
parameters were bound: the emptiness checks on `token_data` and the four id
strings (`clients.py:362-371`, Python falsiness of a string is emptiness),
then the whole-row upsert of the raw `token_data` fields
(`clients.py:374-383`) — `expires_at` is `token_data.get("expires_at")`,
taken from the response body as-is, never computed. -/
def store_tokens (token_data : TokenData)
    (connector_id organization_id user_id project_id : String)
    (store : TokenStore) : Outcome TokenStore :=
  if token_data.isEmpty then .error .noTokenData
  else if connector_id = "" then .error .noConnectorId
  else if organization_id = "" then .error .noOrganizationId
  else if user_id = "" then .error .noUserId
  else if project_id = "" then .error .noProjectId
  else .ok (upsertCred ⟨connector_id, organization_id, user_id, project_id⟩
    ⟨token_data.access_token, token_data.refresh_token, token_data.expires_at, token_data.scope⟩
    store)

/-- CPython argument binding for a call of `store_tokens`, whose signature
(`clients.py:348-353`) has five required parameters with no defaults.  Each
argument is `some` when the call site supplies it; if any required parameter
is unbound the call raises `TypeError` before the body runs. -/
def store_tokens_call (token_data : Option TokenData)
    (connector_id organization_id user_id project_id : Option String)
    (store : TokenStore) : Outcome TokenStore :=
  match token_data, connector_id, organization_id, user_id, project_id with
  | Option.some td, Option.some c, Option.some o, Option.some u, Option.some p =>
      store_tokens td c o u p store
  | _, _, _, _, _ => .error .typeError

/-- Result of `exchange_code`: its outcome, the resulting `user_connectors`
table, and how many POSTs it made to the token endpoint. -/
structure ExchangeResult where
  outcome : Outcome TokenData
  store : TokenStore
  posts : Nat
  deriving DecidableEq, Repr

/-- `exchange_code` (`clients.py:299-346`): checks the state is present in
`oauth_states` (`if not oauth_state`), checks the code is non-empty, POSTs
the authorization-code grant, raises on a non-200 status, and on 200 calls
`store_tokens` with all five arguments bound (`clients.py:340-345`) and
returns the body. -/
def exchange_code (code state connector_id organization_id user_id project_id : String)
    (oauth_states : List String) (store : TokenStore) (resp : HttpResponse) : ExchangeResult :=
  if fetch_oauth_state state oauth_states = [] then ⟨.error .invalidOAuthState, store, 0⟩
  else if code = "" then ⟨.error .noAuthCode, store, 0⟩
  else if resp.status ≠ 200 then ⟨.error .tokenExchangeFailed, store, 1⟩
  else
    match store_tokens_call (Option.some resp.body) (Option.some connector_id)
        (Option.some organization_id) (Option.some user_id) (Option.some project_id) store with
    | .error e => ⟨.error e, store, 1⟩
    | .ok store2 => ⟨.ok resp.body, store2, 1⟩

/-- Result of `refresh_access_token`: outcome, resulting table, POST count,
and the value sent as the `refresh_token` form field of the POST (when one
was made). -/
structure RefreshResult where
  outcome : Outcome TokenData
  store : TokenStore
  posts : Nat
  sentRefreshToken : Option PyValue
  deriving DecidableEq, Repr

/-- `refresh_access_token` (`clients.py:387-426`).  Line 402 calls the
`async` function `get_refresh_token` without `await`, so the local
`refresh_token` is a coroutine object, not the stored value; being an
object it is truthy, so the `if not refresh_token` guard at line 404 never
fires.  The form data of the POST carries that coroutine object as the
`refresh_token` field (line 411).  A non-200 status raises the generic
`Exception("Token refresh failed")` (line 422, no status classification and
no retry).  On 200, line 425 calls `self.store_tokens(new_token_data)`,
binding only `token_data` of the five required parameters. -/
def refresh_access_token (connector_id organization_id user_id project_id : String)
    (store : TokenStore) (resp : HttpResponse) : RefreshResult :=
  let refresh_token : PyValue := .coroutine "get_refresh_token"
  if pyTruthy refresh_token = false then
    ⟨.error .noRefreshTokenFound, store, 0, Option.none⟩
  else if resp.status ≠ 200 then
    ⟨.error .tokenRefreshFailed, store, 1, Option.some refresh_token⟩
  else
    match store_tokens_call (Option.some resp.body)
        Option.none Option.none Option.none Option.none store with
    | .error e => ⟨.error e, store, 1, Option.some refresh_token⟩
    | .ok store2 => ⟨.ok resp.body, store2, 1, Option.some refresh_token⟩

/-- `get_refresh_token` (`clients.py:453-476`), the body the coroutine would
run if it were awaited: a `.single()` select of the `refresh_token` column
for the key; `.single()` raises when no row matches. -/
def get_refresh_token (connector_id organization_id user_id project_id : String)
    (store : TokenStore) : Outcome (Option String) :=
  match lookupCred ⟨connector_id, organization_id, user_id, project_id⟩ store with
  | Option.none => .error .singleRowNotFound
  | Option.some r => .ok r.refresh_token

/-- Result of `get_access_token`: outcome and token-endpoint POST count. -/
structure AccessResult where
  outcome : Outcome (Option String)
  posts : Nat
  deriving DecidableEq, Repr

/-- `get_access_token` (`clients.py:428-451`): a `.single()` select of the
`access_token` column for the key, returned as stored.  The body contains no
clock read, no comparison against `expires_at`, no call to
`refresh_access_token`, and no HTTP request at all. -/
def get_access_token (connector_id organization_id user_id project_id : String)
    (store : TokenStore) : AccessResult :=
  match lookupCred ⟨connector_id, organization_id, user_id, project_id⟩ store with
  | Option.none => ⟨.error .singleRowNotFound, 0⟩
  | Option.some r => ⟨.ok r.access_token, 0⟩

/-- `n` successive calls of `get_access_token` for one key (the store is
never written by `get_access_token`, so each call reads the same table):
the list of their outcomes and their total token-endpoint POST count. -/
def get_access_token_calls : Nat → String → String → String → String → TokenStore →
    List (Outcome (Option String)) × Nat
  | 0, _, _, _, _, _ => ([], 0)
  | n + 1, c, o, u, p, store =>
    let r := get_access_token c o u p store
    let rest := get_access_token_calls n c o u p store
    (r.outcome :: rest.1, r.posts + rest.2)

/-- Query parameters of the HubSpot OAuth callback
(`src/modules/integration/schemas.py`, `HubSpotCallbackQueryParams`). -/
structure CallbackParams where
  code : String
  state : String
  scope : Option String
  error : Option String
  project_id : String
  connector_id : String
  deriving DecidableEq, Repr

/-- Result of the callback route handler. -/
structure CallbackResult where
  outcome : Outcome String
  store : TokenStore
  posts : Nat
  deriving DecidableEq, Repr

/-- `hubspot_oauth_callback` (`src/modules/integration/routes/hubspot.py:30-64`):
if `params.error` is truthy it raises `HTTPException(400, ...)` before any
other work; the surrounding `except Exception` re-raises every exception —
that 400 included — as `HTTPException(500, ...)`.  Otherwise it runs
`exchange_code` with the identity of the caller and returns the success message.
No token-endpoint POST happens on the error branch. -/
def hubspot_oauth_callback (params : CallbackParams) (organization_id user_id : String)
    (oauth_states : List String) (store : TokenStore) (resp : HttpResponse) : CallbackResult :=
  if pyTruthyOptStr params.error then
    ⟨.error (.httpException 500), store, 0⟩
  else
    let r := exchange_code params.code params.state params.connector_id organization_id
      user_id params.project_id oauth_states store resp
    match r.outcome with
    | .error _ => ⟨.error (.httpException 500), r.store, r.posts⟩
    | .ok _ => ⟨.ok "HubSpot account connected successfully", r.store, r.posts⟩

/-! ## Concrete sample values used by witnesses and counterexamples -/

/-- The credential key of the running example. -/
def sampleKey : CredKey := ⟨"hubspot", "org1", "user1", "proj1"⟩

/-- A previously stored credential whose `expires_at` (0) lies in the past of
any positive clock value: an expired or expiring credential. -/
def sampleCred : CredRecord :=
  ⟨Option.some "a1", Option.some "r1", Option.some 0, Option.none⟩

/-- A `user_connectors` table holding only the sample credential. -/
def sampleStore : TokenStore := [(sampleKey, sampleCred)]

/-- The `oauth_states` table after `initiate` stored the state value `X`. -/
def sampleStates : List String := store_oauth_state "X" []

/-- A typical 200 exchange response body: `access_token` and `expires_in`
present (as token endpoints send), `expires_at` absent. -/
def exchangeBody : TokenData :=
  ⟨Option.some "a1", Option.some "r1", Option.some 3600, Option.none, Option.none⟩

/-- A 200 response carrying `exchangeBody`. -/
def exchangeResp : HttpResponse := ⟨200, exchangeBody⟩

/-- A 200 refresh response body that includes a new refresh token `r2`. -/
def refreshBody : TokenData :=
  ⟨Option.some "a2", Option.some "r2", Option.some 3600, Option.none, Option.none⟩

/-- A 200 response carrying `refreshBody`. -/
def refreshResp : HttpResponse := ⟨200, refreshBody⟩

/-- A response body with every key absent (an empty JSON object). -/
def emptyBody : TokenData :=
  ⟨Option.none, Option.none, Option.none, Option.none, Option.none⟩

/-- A response body carrying only a refresh token: no `access_token`, no
`expires_in`. -/
def noAccessBody : TokenData :=
  ⟨Option.none, Option.some "r9", Option.none, Option.none, Option.none⟩

/-- Callback query parameters in which the provider set the error field. -/
def deniedParams : CallbackParams :=
  ⟨"ABC", "X", Option.none, Option.some "access_denied", "proj1", "hubspot"⟩

/-! ## Helper lemmas -/

/-- A state present in the `oauth_states` table is found by
`fetch_oauth_state`. -/
theorem fetch_oauth_state_ne_nil_of_mem (state : String) (states : List String)
    (h : state ∈ states) : fetch_oauth_state state states ≠ [] := by
  unfold fetch_oauth_state
  exact List.ne_nil_of_mem (List.mem_filter.mpr ⟨h, by simp⟩)

/-- `store_tokens_call` never raises the invalid-state exception: its
possible errors are the argument checks of `store_tokens` and `TypeError`. -/
theorem store_tokens_call_not_invalid_state (td : Option TokenData)
    (c o u p : Option String) (store : TokenStore) :
    store_tokens_call td c o u p store ≠ Outcome.error .invalidOAuthState := by
  unfold store_tokens_call
  split
  · unfold store_tokens
    split_ifs <;> simp
  · simp

/-- Once a state is stored, `exchange_code` never fails the state check, on
any presentation, against any store and any response. -/
theorem exchange_code_accepts_stored_state (code state c o u p : String)
    (states : List String) (store : TokenStore) (resp : HttpResponse)
    (h : state ∈ states) :
    (exchange_code code state c o u p states store resp).outcome
      ≠ Outcome.error .invalidOAuthState := by
  have hf := fetch_oauth_state_ne_nil_of_mem state states h
  unfold exchange_code
  rw [if_neg hf]
  split_ifs
  · simp
  · simp
  · cases hst : store_tokens_call (Option.some resp.body) (Option.some c)
        (Option.some o) (Option.some u) (Option.some p) store with
    | ok store2 => simp [hst]
    | error e =>
      have hne := store_tokens_call_not_invalid_state (Option.some resp.body)
        (Option.some c) (Option.some o) (Option.some u) (Option.some p) store
      rw [hst] at hne
      simpa [hst] using fun hcontra => hne (by rw [hcontra])

/-- A call of `get_access_token` makes no token-endpoint POST. -/
theorem get_access_token_posts_zero (c o u p : String) (store : TokenStore) :
    (get_access_token c o u p store).posts = 0 := by
  unfold get_access_token
  cases lookupCred ⟨c, o, u, p⟩ store <;> rfl

/-- Looking up a key right after upserting it yields the upserted row. -/
theorem lookupCred_upsertCred (k : CredKey) (r : CredRecord) (store : TokenStore) :
    lookupCred k (upsertCred k r store) = Option.some r := by
  induction store with
  | nil => simp [upsertCred, lookupCred]
  | cons hd tl ih =>
    rcases hd with ⟨k2, r2⟩
    by_cases h : k2 = k
    · simp [upsertCred, lookupCred, h]
    · simp [upsertCred, lookupCred, h, ih]

/-! ## C1 — CSRF state consumption -/

/-- C1, as stated, is false of the code: the claim says consumption of a
state atomically fetches-and-deletes it, so that a second presentation of
the same state value fails with an invalid-state error.  Here the state `X`,
issued once into `oauth_states`, is presented to `exchange_code` twice and
both presentations succeed, because `fetch_oauth_state` only selects the row
and never deletes it (and no ttl exists to expire it). -/
theorem C1_counterexample :
    (exchange_code "ABC" "X" "hubspot" "org1" "user1" "proj1"
      sampleStates [] exchangeResp).outcome = .ok exchangeBody ∧
    (exchange_code "ABC" "X" "hubspot" "org1" "user1" "proj1" sampleStates
      (exchange_code "ABC" "X" "hubspot" "org1" "user1" "proj1"
        sampleStates [] exchangeResp).store exchangeResp).outcome = .ok exchangeBody := by
  decide

/-- C1 amended: a state stored in `oauth_states` passes the state check of
`exchange_code` on every presentation — against any credential store and any
response, any number of times and at any age — because `fetch_oauth_state`
is a pure select with no delete and no ttl. -/
theorem C1_state_reusable_no_ttl (code state c o u p : String) (states : List String)
    (store1 store2 : TokenStore) (r1 r2 : HttpResponse) (h : state ∈ states) :
    (exchange_code code state c o u p states store1 r1).outcome
      ≠ Outcome.error .invalidOAuthState ∧
    (exchange_code code state c o u p states store2 r2).outcome
      ≠ Outcome.error .invalidOAuthState :=
  ⟨exchange_code_accepts_stored_state code state c o u p states store1 r1 h,
   exchange_code_accepts_stored_state code state c o u p states store2 r2 h⟩

/-- C1 witness: the amended theorem at the concrete issued state `X`. -/
theorem C1_witness :
    (exchange_code "ABC" "X" "hubspot" "org1" "user1" "proj1"
      sampleStates [] exchangeResp).outcome ≠ Outcome.error .invalidOAuthState ∧
    (exchange_code "ABC" "X" "hubspot" "org1" "user1" "proj1"
      sampleStates sampleStore exchangeResp).outcome ≠ Outcome.error .invalidOAuthState :=
  C1_state_reusable_no_ttl "ABC" "X" "hubspot" "org1" "user1" "proj1"
    sampleStates [] sampleStore exchangeResp exchangeResp (by decide)

/-! ## C2 — single-flight refresh -/

/-- C2, as stated, is false of the code: the claim says N concurrent
`getValidAccessToken` calls on an expiring credential cause exactly one
token-endpoint refresh call and return the refreshed token.  Two calls of
`get_access_token` on the expired sample credential (`expires_at` 0) make 0
token-endpoint POSTs — not 1 — and both return the stale stored token
`a1`, because `get_access_token` contains no refresh logic at all. -/
theorem C2_counterexample :
    (get_access_token_calls 2 "hubspot" "org1" "user1" "proj1" sampleStore).2 = 0 ∧
    (get_access_token_calls 2 "hubspot" "org1" "user1" "proj1" sampleStore).2 ≠ 1 ∧
    (get_access_token_calls 2 "hubspot" "org1" "user1" "proj1" sampleStore).1
      = [.ok (Option.some "a1"), .ok (Option.some "a1")] := by
  decide

/-- C2 amended: N calls of `get_access_token` for one key make zero
token-endpoint POSTs, and every caller receives the same stored
`access_token` value unchanged; no refresh is ever triggered, so no
single-flight deduplication exists or is needed there. -/
theorem C2_no_refresh_no_singleflight (n : Nat) (c o u p : String) (store : TokenStore) :
    (get_access_token_calls n c o u p store).2 = 0 ∧
    ∀ x ∈ (get_access_token_calls n c o u p store).1,
      x = (get_access_token c o u p store).outcome := by
  induction n with
  | zero => exact ⟨rfl, by intro x hx; cases hx⟩
  | succ n ih =>
    refine ⟨?_, ?_⟩
    · show (get_access_token c o u p store).posts
        + (get_access_token_calls n c o u p store).2 = 0
      rw [get_access_token_posts_zero, ih.1]
    · intro x hx
      rcases List.mem_cons.mp hx with h | h
      · exact h
      · exact ih.2 x h

/-! ## C3 — expiry check before returning a token -/

/-- C3, as stated, is false of the code: the claim says that on a credential
whose `expires_at` is not beyond the 60-second margin a refresh is triggered
and the refreshed token returned.  On the expired sample credential
(`expires_at` 0, before any positive clock value; under the cited scenario
the stub refresh would deliver `a2`) `get_access_token` returns the stale
stored token `a1`, not a refreshed token, and makes no network call: its
body never reads `expires_at`, never reads a clock, and never calls
`refresh_access_token`. -/
theorem C3_counterexample :
    (get_access_token "hubspot" "org1" "user1" "proj1" sampleStore).outcome
      = .ok (Option.some "a1") ∧
    (get_access_token "hubspot" "org1" "user1" "proj1" sampleStore).outcome
      ≠ .ok (Option.some "a2") ∧
    (get_access_token "hubspot" "org1" "user1" "proj1" sampleStore).posts = 0 := by
  decide

/-- C3 amended: `get_access_token` returns the stored `access_token` for the
key with no network call, unconditionally — it takes no clock, reads no
`expires_at`, and never triggers a refresh, whatever the stored expiry. -/
theorem C3_returns_stored_token_without_refresh (c o u p : String)
    (store : TokenStore) (r : CredRecord)
    (h : lookupCred ⟨c, o, u, p⟩ store = Option.some r) :
    (get_access_token c o u p store).outcome = .ok r.access_token ∧
    (get_access_token c o u p store).posts = 0 := by
  unfold get_access_token
  rw [h]
  exact ⟨rfl, rfl⟩

/-- C3 witness: the amended theorem at the expired sample credential. -/
theorem C3_witness :
    (get_access_token "hubspot" "org1" "user1" "proj1" sampleStore).outcome
      = .ok (Option.some "a1") ∧
    (get_access_token "hubspot" "org1" "user1" "proj1" sampleStore).posts = 0 :=
  C3_returns_stored_token_without_refresh "hubspot" "org1" "user1" "proj1"
    sampleStore sampleCred (by decide)

/-! ## C4 — what a 2xx code exchange stores -/

/-- C4, as stated, is false of the code: the claim says a 2xx exchange
validates `access_token` and `expires_in` and stores
`expires_at = now + expires_in`.  A 200 response carrying `access_token` and
`expires_in` (3600) but no `expires_at` key is stored with `expires_at`
null — the raw `token_data.get("expires_at")` — not a computed instant; and
a 200 response carrying only a `refresh_token`, with `access_token` and
`expires_in` both absent, is accepted and stored without any validation. -/
theorem C4_counterexample :
    (exchange_code "ABC" "X" "hubspot" "org1" "user1" "proj1"
      sampleStates [] exchangeResp).outcome = .ok exchangeBody ∧
    (lookupCred sampleKey (exchange_code "ABC" "X" "hubspot" "org1" "user1" "proj1"
      sampleStates [] exchangeResp).store).map CredRecord.expires_at
      = Option.some Option.none ∧
    (exchange_code "ABC" "X" "hubspot" "org1" "user1" "proj1"
      sampleStates [] ⟨200, noAccessBody⟩).outcome = .ok noAccessBody ∧
    (lookupCred sampleKey (exchange_code "ABC" "X" "hubspot" "org1" "user1" "proj1"
      sampleStates [] ⟨200, noAccessBody⟩).store).map CredRecord.access_token
      = Option.some Option.none := by
  decide

/-- C4 amended: on a 200 response, `exchange_code` upserts the row keyed by
(connector_id, organization_id, user_id, project_id) with the raw response
fields: `access_token`, `refresh_token`, `scope` and `expires_at` exactly as
found in the body (`expires_at` is not computed from `expires_in`, and the
only validation is that the body is a non-empty dict and the four id strings
are non-empty). -/
theorem C4_upsert_raw_fields (code state c o u p : String) (states : List String)
    (store : TokenStore) (resp : HttpResponse)
    (hst : state ∈ states) (hcode : code ≠ "") (hs : resp.status = 200)
    (hbody : resp.body.isEmpty = false)
    (hc : c ≠ "") (ho : o ≠ "") (hu : u ≠ "") (hp : p ≠ "") :
    (exchange_code code state c o u p states store resp).outcome = .ok resp.body ∧
    (exchange_code code state c o u p states store resp).store =
      upsertCred ⟨c, o, u, p⟩
        ⟨resp.body.access_token, resp.body.refresh_token,
         resp.body.expires_at, resp.body.scope⟩ store := by
  have hf := fetch_oauth_state_ne_nil_of_mem state states hst
  unfold exchange_code store_tokens_call store_tokens
  rw [if_neg hf, if_neg hcode, if_neg (by simp [hs])]
  simp [hbody, hc, ho, hu, hp]

/-- C4 witness: the amended theorem at the concrete exchange response. -/
theorem C4_witness :
    (exchange_code "ABC" "X" "hubspot" "org1" "user1" "proj1"
      sampleStates sampleStore exchangeResp).outcome = .ok exchangeBody ∧
    (exchange_code "ABC" "X" "hubspot" "org1" "user1" "proj1"
      sampleStates sampleStore exchangeResp).store =
      upsertCred sampleKey
        ⟨Option.some "a1", Option.some "r1", Option.none, Option.none⟩
        sampleStore :=
  C4_upsert_raw_fields "ABC" "X" "hubspot" "org1" "user1" "proj1"
    sampleStates sampleStore exchangeResp (by decide) (by decide) (by decide)
    (by decide) (by decide) (by decide) (by decide) (by decide)

/-! ## C5 — refresh_token retention on refresh -/

/-- C5, as stated, is false of the code: the claim says a refresh whose 200
response includes a new refresh_token overwrites the stored value with it.
A refresh against the sample store with a 200 response carrying
refresh_token `r2` leaves the store identical — the stored refresh_token is
still `r1` — because line 425 calls `store_tokens` without its required id
arguments, raising `TypeError` before any write. -/
theorem C5_counterexample :
    (refresh_access_token "hubspot" "org1" "user1" "proj1"
      sampleStore refreshResp).store = sampleStore ∧
    (lookupCred sampleKey (refresh_access_token "hubspot" "org1" "user1" "proj1"
      sampleStore refreshResp).store).map CredRecord.refresh_token
      = Option.some (Option.some "r1") ∧
    (refresh_access_token "hubspot" "org1" "user1" "proj1"
      sampleStore refreshResp).outcome = .error .typeError := by
  decide

/-- C5 amended: a refresh with a 200 response persists nothing at all (the
stored refresh_token is left unchanged whether or not the response carries a
new one), and the underlying `store_tokens` upsert — reached only from
`exchange_code` — overwrites every stored field with the raw response value,
writing `refresh_token` as `token_data.get("refresh_token")`, i.e. null when
the response omits it. -/
theorem C5_refresh_never_persists_and_upsert_overwrites :
    (∀ (c o u p : String) (store : TokenStore) (resp : HttpResponse),
      resp.status = 200 → (refresh_access_token c o u p store resp).store = store) ∧
    (∀ (td : TokenData) (c o u p : String) (store store2 : TokenStore),
      store_tokens td c o u p store = .ok store2 →
      lookupCred ⟨c, o, u, p⟩ store2 =
        Option.some ⟨td.access_token, td.refresh_token, td.expires_at, td.scope⟩) := by
  constructor
  · intro c o u p store resp h
    simp [refresh_access_token, store_tokens_call, pyTruthy, h]
  · intro td c o u p store store2 h
    unfold store_tokens at h
    split_ifs at h
    cases h
    exact lookupCred_upsertCred _ _ store

/-- C5 witness: the amended theorem at concrete inputs — the refresh with
the `r2`-carrying response leaves the sample store unchanged, and a
`store_tokens` upsert of `emptyBody`-free data with no refresh_token writes
null over the stored `r1`. -/
theorem C5_witness :
    (refresh_access_token "hubspot" "org1" "user1" "proj1"
      sampleStore refreshResp).store = sampleStore ∧
    lookupCred sampleKey
      (upsertCred sampleKey
        ⟨Option.some "a2", Option.none, Option.none, Option.none⟩ sampleStore)
      = Option.some ⟨Option.some "a2", Option.none, Option.none, Option.none⟩ := by
  refine ⟨C5_refresh_never_persists_and_upsert_overwrites.1 "hubspot" "org1" "user1" "proj1"
    sampleStore refreshResp (by decide), ?_⟩
  exact C5_refresh_never_persists_and_upsert_overwrites.2
    ⟨Option.some "a2", Option.none, Option.none, Option.none, Option.none⟩
    "hubspot" "org1" "user1" "proj1" sampleStore _ (by decide)

/-! ## C6 — classification of refresh failures -/

/-- C6, as stated, is false of the code: the claim says a 400/401 refresh
response raises a distinct terminal re-auth error while any other non-2xx
raises a transient error after exactly one automatic retry.  A 400 response
and a 503 response both raise the same generic
`Exception("Token refresh failed")`, and the 503 call makes exactly one POST
— there is no retry and no status classification. -/
theorem C6_counterexample :
    (refresh_access_token "hubspot" "org1" "user1" "proj1"
      sampleStore ⟨400, emptyBody⟩).outcome = .error .tokenRefreshFailed ∧
    (refresh_access_token "hubspot" "org1" "user1" "proj1"
      sampleStore ⟨503, emptyBody⟩).outcome = .error .tokenRefreshFailed ∧
    (refresh_access_token "hubspot" "org1" "user1" "proj1"
      sampleStore ⟨503, emptyBody⟩).posts = 1 := by
  decide

/-- C6 amended: every non-200 refresh response — 400, 401, 5xx alike —
raises the one generic refresh-failed exception after exactly one POST, with
no retry and with the stored credential untouched. -/
theorem C6_uniform_refresh_failure (c o u p : String) (store : TokenStore)
    (resp : HttpResponse) (h : resp.status ≠ 200) :
    (refresh_access_token c o u p store resp).outcome = .error .tokenRefreshFailed ∧
    (refresh_access_token c o u p store resp).posts = 1 ∧
    (refresh_access_token c o u p store resp).store = store := by
  simp [refresh_access_token, pyTruthy, h]

/-- C6 witness: the amended theorem at a concrete 401 response. -/
theorem C6_witness :
    (refresh_access_token "hubspot" "org1" "user1" "proj1"
      sampleStore ⟨401, emptyBody⟩).outcome = .error .tokenRefreshFailed ∧
    (refresh_access_token "hubspot" "org1" "user1" "proj1"
      sampleStore ⟨401, emptyBody⟩).posts = 1 ∧
    (refresh_access_token "hubspot" "org1" "user1" "proj1"
      sampleStore ⟨401, emptyBody⟩).store = sampleStore :=
  C6_uniform_refresh_failure "hubspot" "org1" "user1" "proj1"
    sampleStore ⟨401, emptyBody⟩ (by decide)

/-! ## C7 — failed operations leave the credential store unchanged -/

/-- C7: whenever `exchange_code` or `refresh_access_token` ends in a raised
exception, the `user_connectors` table is exactly what it was before the
call — every failing path raises before the upsert, and the only write is a
single whole-row upsert, so no partially written credential is ever
observable. -/
theorem C7_failed_ops_leave_store_unchanged :
    (∀ (code state c o u p : String) (states : List String) (store : TokenStore)
       (resp : HttpResponse) (e : PyErr),
      (exchange_code code state c o u p states store resp).outcome = .error e →
      (exchange_code code state c o u p states store resp).store = store) ∧
    (∀ (c o u p : String) (store : TokenStore) (resp : HttpResponse) (e : PyErr),
      (refresh_access_token c o u p store resp).outcome = .error e →
      (refresh_access_token c o u p store resp).store = store) := by
  constructor
  · intro code state c o u p states store resp e h
    unfold exchange_code at h ⊢
    split_ifs at h ⊢ <;> try rfl
    cases hst : store_tokens_call (Option.some resp.body) (Option.some c)
        (Option.some o) (Option.some u) (Option.some p) store with
    | ok store2 => rw [hst] at h; simp at h
    | error e2 => rfl
  · intro c o u p store resp e h
    unfold refresh_access_token at h ⊢
    split_ifs at h ⊢ <;> rfl

/-- C7 witness: both parts at concrete failing calls — an exchange against a
400 response and a refresh against a 400 response leave the sample store
untouched. -/
theorem C7_witness :
    (exchange_code "ABC" "X" "hubspot" "org1" "user1" "proj1"
      sampleStates sampleStore ⟨400, emptyBody⟩).store = sampleStore ∧
    (refresh_access_token "hubspot" "org1" "user1" "proj1"
      sampleStore ⟨400, emptyBody⟩).store = sampleStore :=
  ⟨C7_failed_ops_leave_store_unchanged.1 "ABC" "X" "hubspot" "org1" "user1" "proj1"
      sampleStates sampleStore ⟨400, emptyBody⟩ .tokenExchangeFailed (by decide),
   C7_failed_ops_leave_store_unchanged.2 "hubspot" "org1" "user1" "proj1"
      sampleStore ⟨400, emptyBody⟩ .tokenRefreshFailed (by decide)⟩

/-! ## C8 — provider error short-circuits the callback -/

/-- C8: when the provider error query parameter is set (truthy), the HubSpot
callback raises immediately — before `exchange_code` runs — so no
token-endpoint POST is ever issued and the credential store is untouched.
(The 400 raised inside the handler is re-raised as an `HTTPException` with
status 500 by the catch-all except block.) -/
theorem C8_provider_error_no_token_call (params : CallbackParams) (o u : String)
    (states : List String) (store : TokenStore) (resp : HttpResponse)
    (h : pyTruthyOptStr params.error = true) :
    (hubspot_oauth_callback params o u states store resp).outcome
      = .error (.httpException 500) ∧
    (hubspot_oauth_callback params o u states store resp).posts = 0 ∧
    (hubspot_oauth_callback params o u states store resp).store = store := by
  simp [hubspot_oauth_callback, h]

/-- C8 witness: the theorem at concrete callback parameters carrying
`error=access_denied`. -/
theorem C8_witness :
    (hubspot_oauth_callback deniedParams "org1" "user1"
      sampleStates sampleStore exchangeResp).outcome = .error (.httpException 500) ∧
    (hubspot_oauth_callback deniedParams "org1" "user1"
      sampleStates sampleStore exchangeResp).posts = 0 ∧
    (hubspot_oauth_callback deniedParams "org1" "user1"
      sampleStates sampleStore exchangeResp).store = sampleStore :=
  C8_provider_error_no_token_call deniedParams "org1" "user1"
    sampleStates sampleStore exchangeResp (by decide)

/-! ## C9 — the 200 refresh path raises TypeError -/

/-- C9: on every 200 token-endpoint response, `refresh_access_token` calls
`store_tokens(new_token_data)` with only one of the five required
parameters bound (`clients.py:425` versus the signature at 348-353), so the
call raises `TypeError`: the function never returns normally on a
successful response and the refreshed tokens are never persisted. -/
theorem C9_refresh_success_raises_typeerror (c o u p : String) (store : TokenStore)
    (resp : HttpResponse) (h : resp.status = 200) :
    (refresh_access_token c o u p store resp).outcome = .error .typeError ∧
    (refresh_access_token c o u p store resp).store = store := by
  simp [refresh_access_token, store_tokens_call, pyTruthy, h]

/-- C9 witness: the theorem at the concrete 200 refresh response. -/
theorem C9_witness :
    (refresh_access_token "hubspot" "org1" "user1" "proj1"
      sampleStore refreshResp).outcome = .error .typeError ∧
    (refresh_access_token "hubspot" "org1" "user1" "proj1"
      sampleStore refreshResp).store = sampleStore :=
  C9_refresh_success_raises_typeerror "hubspot" "org1" "user1" "proj1"
    sampleStore refreshResp (by decide)

/-! ## C10 — the no-refresh-token branch is unreachable -/

/-- C10: because `get_refresh_token` is called without `await` at
`clients.py:402`, the local `refresh_token` is a coroutine object — always
truthy — so for every stored credential state (one with no refresh_token
included) the `"No refresh token found"` branch never fires, the POST always
happens, and the coroutine object, not the stored string, is sent as the
`refresh_token` form field. -/
theorem C10_no_refresh_token_branch_unreachable (c o u p : String)
    (store : TokenStore) (resp : HttpResponse) :
    (refresh_access_token c o u p store resp).outcome
      ≠ .error .noRefreshTokenFound ∧
    (refresh_access_token c o u p store resp).posts = 1 ∧
    (refresh_access_token c o u p store resp).sentRefreshToken
      = Option.some (PyValue.coroutine "get_refresh_token") ∧
    ∀ s : String, (refresh_access_token c o u p store resp).sentRefreshToken
      ≠ Option.some (PyValue.str s) := by
  by_cases h : resp.status = 200
  · cases hst : store_tokens_call (Option.some resp.body)
        Option.none Option.none Option.none Option.none store with
    | ok store2 => simp [refresh_access_token, store_tokens_call, pyTruthy, h] at hst ⊢
    | error e2 => simp [refresh_access_token, store_tokens_call, pyTruthy, h]
  · simp [refresh_access_token, pyTruthy, h]

/-- C10 witness: the theorem at a store whose credential has no stored
refresh_token at all — the branch still does not fire. -/
theorem C10_witness :
    (refresh_access_token "hubspot" "org1" "user1" "proj1"
      [(sampleKey, ⟨Option.some "a1", Option.none, Option.some 0, Option.none⟩)]
      ⟨503, emptyBody⟩).outcome ≠ .error .noRefreshTokenFound ∧
    (refresh_access_token "hubspot" "org1" "user1" "proj1"
      [(sampleKey, ⟨Option.some "a1", Option.none, Option.some 0, Option.none⟩)]
      ⟨503, emptyBody⟩).sentRefreshToken
      = Option.some (PyValue.coroutine "get_refresh_token") :=
  ⟨(C10_no_refresh_token_branch_unreachable "hubspot" "org1" "user1" "proj1"
      [(sampleKey, ⟨Option.some "a1", Option.none, Option.some 0, Option.none⟩)]
      ⟨503, emptyBody⟩).1,
   (C10_no_refresh_token_branch_unreachable "hubspot" "org1" "user1" "proj1"
      [(sampleKey, ⟨Option.some "a1", Option.none, Option.some 0, Option.none⟩)]
      ⟨503, emptyBody⟩).2.2.1⟩
